import Mathlib

/-!
Verification development for the SUMO traffic-signal RL environment
adapters of this repository: the `SumoEnv` class of `DQN_working.py`
(namespace `DQN`) and the `SumoEnv` class of `PPO.py` (namespace `PPO`).

The external simulator, reached through the TraCI protocol, is a black
box.  It is modelled by an `Oracle` structure recording the outcome of
each protocol call made during one environment operation: an `Option`
field is `none` when the call raises `TraCIException`, and a `Bool`
success flag is `false` when the corresponding command raises.
Measurements are embedded as rationals (the code stores them in float32
vectors, but all values of interest are small integers produced by the
simulator).  Methods that can let a `TraCIException` escape are embedded
in `Except Unit`; methods that catch every exception are total functions.
-/

deriving instance DecidableEq for Except

/-- Result of `_apply_action`: the value of `last_switch_step` after the
call, and the `setPhase` command sent to the simulator (`none` when no
`setPhase` call was attempted at all). -/
structure ApplyResult where
  last_switch_step : Int
  phaseCmd : Option Nat
deriving DecidableEq

namespace DQN

/-- Oracle for the TraCI calls made by the `SumoEnv` of `DQN_working.py`.
`queues i` is the result of `lanearea.getLastStepVehicleNumber` for the
i-th detector in the fixed order e2_2, e2_3, e2_4, e2_6, e2_11, e2_9;
`getPhase` is `trafficlight.getPhase`; `programPhases` is
`len(getAllProgramLogics(tls_id)[0].phases)`; `setPhaseOk` tells whether
`trafficlight.setPhase` succeeds; `simStepOk` tells whether
`traci.simulationStep` succeeds.  `none` / `false` mean the call raises
`TraCIException`. -/
structure Oracle where
  queues : Fin 6 → Option ℚ
  getPhase : Option Nat
  programPhases : Option Nat
  setPhaseOk : Bool
  simStepOk : Bool

/-- `self.min_green_steps = 5` in `__init__`. -/
def min_green_steps : Int := 5

/-- `self.max_steps = 1000` in `__init__`. -/
def max_steps : Int := 1000

/-- The mutable fields of the DQN `SumoEnv` that `step` reads or writes. -/
structure EnvState where
  step_count : Int
  cumulative_reward : ℚ
  total_queue : ℚ
  last_switch_step : Int
  episode_count : Int
deriving DecidableEq

/-- Embedding of `_apply_action` of `DQN_working.py` (lines 138-155).
`current_simulation_step` was set to `step_count` by the caller.  The
`getPhase` query sits outside the `try` block, so its failure escapes as
an exception (`Except.error`); failures of the program-logic query or of
`setPhase` are caught by the `except TraCIException: pass` handler and
leave the state unchanged. -/
def _apply_action (o : Oracle) (current_simulation_step last_switch_step : Int)
    (action : Nat) : Except Unit ApplyResult :=
  if action = 0 then Except.ok ⟨last_switch_step, none⟩
  else if action = 1 then
    if min_green_steps ≤ current_simulation_step - last_switch_step then
      match o.getPhase with
      | none => Except.error ()
      | some current_phase =>
        match o.programPhases with
        | none => Except.ok ⟨last_switch_step, none⟩
        | some num_phases =>
          if num_phases = 0 then Except.ok ⟨last_switch_step, none⟩
          else
            let next_phase := (current_phase + 1) % num_phases
            if o.setPhaseOk then Except.ok ⟨current_simulation_step, some next_phase⟩
            else Except.ok ⟨last_switch_step, some next_phase⟩
    else Except.ok ⟨last_switch_step, none⟩
  else Except.ok ⟨last_switch_step, none⟩

/-- Embedding of `_get_state` of `DQN_working.py`: six detector queries
followed by the phase query, none of which catches exceptions, so any
failure escapes.  The queries run sequentially in the source; the result
is the same whichever one fails first. -/
def _get_state (o : Oracle) : Except Unit (List ℚ) :=
  match o.queues 0, o.queues 1, o.queues 2, o.queues 3, o.queues 4, o.queues 5,
        o.getPhase with
  | some q_EB_0, some q_SB_0, some q_SB_1, some q_WB_0, some q_NB_0, some q_NB_1,
    some current_phase =>
      Except.ok [q_EB_0, q_SB_0, q_SB_1, q_WB_0, q_NB_0, q_NB_1, (current_phase : ℚ)]
  | _, _, _, _, _, _, _ => Except.error ()

/-- Embedding of `_get_reward`: `-float(sum(state[:-1]))`. -/
def _get_reward (state : List ℚ) : ℚ := -(state.dropLast.sum)

/-- The tuple returned by `step`, plus the environment state after the
call.  `info` carries `(episode, cumulative_reward, avg_queue_length)`
when the episode ends, `none` otherwise. -/
structure StepResult where
  obs : List ℚ
  reward : ℚ
  terminated : Bool
  truncated : Bool
  info : Option (Int × ℚ × ℚ)
  env : EnvState
deriving DecidableEq

/-- Embedding of `step` of `DQN_working.py` (lines 75-102).  Nothing in
this method catches exceptions: a failure of `_apply_action`'s phase
query, of `traci.simulationStep()`, or of any `_get_state` query
propagates to the caller (`Except.error`). -/
def step (o : Oracle) (s : EnvState) (action : Nat) : Except Unit StepResult :=
  let current_simulation_step := s.step_count
  match _apply_action o current_simulation_step s.last_switch_step action with
  | Except.error e => Except.error e
  | Except.ok ar =>
    if o.simStepOk then
      match _get_state o with
      | Except.error e => Except.error e
      | Except.ok new_state =>
        let reward := _get_reward new_state
        let cumulative_reward := s.cumulative_reward + reward
        let total_queue := s.total_queue + new_state.dropLast.sum
        let step_count := s.step_count + 1
        let terminated := false
        let truncated := decide (max_steps ≤ step_count)
        let done := terminated || truncated
        let avg_queue := if 0 < step_count then total_queue / (step_count : ℚ) else 0
        let info := if done then some (s.episode_count, cumulative_reward, avg_queue)
                    else none
        Except.ok { obs := new_state, reward := reward, terminated := terminated,
                    truncated := truncated, info := info,
                    env := { step_count := step_count,
                             cumulative_reward := cumulative_reward,
                             total_queue := total_queue,
                             last_switch_step := ar.last_switch_step,
                             episode_count := s.episode_count } }
    else Except.error ()

/-- Embedding of `close` of `DQN_working.py` (lines 208-210):
`if traci.isLoaded(): traci.close()`.  Inputs: whether the
`traci.close()` call would succeed, and the TraCI loaded flag.  The
method has no exception handler, so a `TraCIException` from
`traci.close()` on a loaded connection escapes (`Except.error`).  On a
normal return the result is the loaded flag afterwards and whether
`traci.close()` was invoked; a close on an unloaded TraCI makes no
protocol call at all, so that path cannot raise. -/
def close (closeOk : Bool) (isLoaded : Bool) : Except Unit (Bool × Bool) :=
  if isLoaded then
    if closeOk then Except.ok (false, true) else Except.error ()
  else Except.ok (isLoaded, false)

end DQN

namespace PPO

/-- Oracle for the TraCI calls made by the `SumoEnv` of `PPO.py`.  The
fields `queues`, `getPhase`, `programPhases`, `setPhaseOk`, `simStepOk`
are as in `DQN.Oracle`; `getTime` is `traci.simulation.getTime()`;
`vehicleCount` is `traci.vehicle.getIDCount()`; `getIDListOk`,
`tlsListed`, `detectorsListed` describe `_validate_ids` (the id-list
queries succeed; the traffic light "41896158" is listed; all six expected
detectors are listed); `closeOk` tells whether `traci.close()` succeeds.
`none` / `false` mean the call raises `TraCIException`. -/
structure Oracle where
  queues : Fin 6 → Option ℚ
  getPhase : Option Nat
  programPhases : Option Nat
  setPhaseOk : Bool
  simStepOk : Bool
  getTime : Option ℚ
  vehicleCount : Option Nat
  getIDListOk : Bool
  tlsListed : Bool
  detectorsListed : Bool
  closeOk : Bool

/-- `MIN_GREEN_SECONDS = 10`; `self.min_green_steps = int(MIN_GREEN_SECONDS)`. -/
def min_green_steps : Int := 10

/-- `STEPS_PER_EPISODE = 1500`; `self.total_steps = STEPS_PER_EPISODE`. -/
def total_steps : Int := 1500

/-- `self.max_retries = 5`. -/
def max_retries : Nat := 5

/-- The mutable fields of the PPO `SumoEnv` that the modelled methods
read or write. -/
structure EnvState where
  last_switch_step : Int
  current_simulation_step : Int
  valid_ids : Bool
  connection_active : Bool
deriving DecidableEq

/-- Embedding of `_validate_ids` of `PPO.py` (lines 95-111): the value
the method stores into `self.valid_ids`.  An exception from the id-list
queries is caught and yields `false`; otherwise the flag is `true` iff
the traffic light and all six expected detectors are listed. -/
def _validate_ids (o : Oracle) : Bool :=
  if o.getIDListOk then
    if o.tlsListed = false then false
    else if o.detectorsListed = false then false
    else true
  else false

/-- Embedding of `_get_queue_length` of `PPO.py`: the query result, or
`0.0` when the query raises (caught internally). -/
def _get_queue_length (o : Oracle) (i : Fin 6) : ℚ := (o.queues i).getD 0

/-- Embedding of `_get_current_phase` of `PPO.py`: the query result, or
`0` when the query raises (caught internally). -/
def _get_current_phase (o : Oracle) : Nat := o.getPhase.getD 0

/-- Embedding of `_get_state` of `PPO.py` (lines 135-149): when
`valid_ids` is false the method returns `np.zeros(7)` without touching
the simulator; otherwise it assembles the six queue lengths and the
phase.  The inner helpers catch their own exceptions, so the outer
`except` branch (also returning zeros) is unreachable. -/
def _get_state (o : Oracle) (valid_ids : Bool) : List ℚ :=
  if valid_ids = false then List.replicate 7 0
  else
    [_get_queue_length o 0, _get_queue_length o 1, _get_queue_length o 2,
     _get_queue_length o 3, _get_queue_length o 4, _get_queue_length o 5,
     (_get_current_phase o : ℚ)]

/-- Embedding of `_get_reward` of `PPO.py`: `-float(sum(state[:-1]))`. -/
def _get_reward (state : List ℚ) : ℚ := -(state.dropLast.sum)

/-- Embedding of `_apply_action` of `PPO.py` (lines 183-201).  With
`valid_ids = false` the method returns immediately.  All TraCI failures
inside are caught: a failing program-logic query returns, a failing
`getPhase` yields phase `0`, and a failing `setPhase` skips the
`last_switch_step` update. -/
def _apply_action (o : Oracle) (s : EnvState) (action : Nat) : ApplyResult :=
  if s.valid_ids = false then ⟨s.last_switch_step, none⟩
  else if action = 0 then ⟨s.last_switch_step, none⟩
  else if action = 1 then
    if min_green_steps ≤ s.current_simulation_step - s.last_switch_step then
      match o.programPhases with
      | none => ⟨s.last_switch_step, none⟩
      | some num_phases =>
        if num_phases = 0 then ⟨s.last_switch_step, none⟩
        else
          let next_phase := (_get_current_phase o + 1) % num_phases
          if o.setPhaseOk then ⟨s.current_simulation_step, some next_phase⟩
          else ⟨s.last_switch_step, some next_phase⟩
    else ⟨s.last_switch_step, none⟩
  else ⟨s.last_switch_step, none⟩

/-- The tuple returned by `step` of `PPO.py`, plus the environment state
after the call.  `info` is the value of the "error" key of the returned
info dictionary, `none` when the dictionary is empty. -/
structure StepResult where
  obs : List ℚ
  reward : ℚ
  terminated : Bool
  truncated : Bool
  info : Option String
  env : EnvState
deriving DecidableEq

/-- Embedding of `step` of `PPO.py` (lines 113-133).  The counter is
incremented first, then the action applied; the `try` block covers the
tick, the time query and the vehicle-count query, any failure of which
is caught and ends the episode; then the degenerate-state checks run in
source order.  The method itself never raises. -/
def step (o : Oracle) (s : EnvState) (action : Nat) : StepResult :=
  let s1 : EnvState :=
    { s with current_simulation_step := s.current_simulation_step + 1 }
  let ar := _apply_action o s1 action
  let s2 : EnvState := { s1 with last_switch_step := ar.last_switch_step }
  if o.simStepOk then
    match o.getTime with
    | none =>
        { obs := _get_state o s2.valid_ids, reward := 0, terminated := true,
          truncated := false, info := some "TraCIException", env := s2 }
    | some current_time =>
      match o.vehicleCount with
      | none =>
          { obs := _get_state o s2.valid_ids, reward := 0, terminated := true,
            truncated := false, info := some "TraCIException", env := s2 }
      | some vehicle_count =>
        if current_time < 0 then
          { obs := _get_state o s2.valid_ids, reward := 0, terminated := true,
            truncated := false, info := some "Negative simulation time", env := s2 }
        else if vehicle_count = 0 ∧ s2.current_simulation_step < total_steps then
          { obs := _get_state o s2.valid_ids, reward := 0, terminated := true,
            truncated := false, info := some "No vehicles", env := s2 }
        else
          let new_state := _get_state o s2.valid_ids
          { obs := new_state, reward := _get_reward new_state,
            terminated := decide (total_steps ≤ s2.current_simulation_step),
            truncated := false, info := none, env := s2 }
  else
    { obs := _get_state o s2.valid_ids, reward := 0, terminated := true,
      truncated := false, info := some "TraCIException", env := s2 }

/-- Embedding of the retry loop of `reset` of `PPO.py` (lines 63-84).
`startOk k` abstracts the whole `try` body at attempt `k` (the
`traci.start`, the first `traci.simulationStep()`, and `_validate_ids`,
which never raises): `true` when it completes without `TraCIException`.
On failure the method sleeps and recurses with `retry_count + 1` while
`retry_count < max_retries`, and otherwise re-raises the exception.
Returns the index of the successful attempt. -/
def resetLoop (startOk : Nat → Bool) (retry_count : Nat) : Except Unit Nat :=
  if startOk retry_count then Except.ok retry_count
  else if retry_count < max_retries then resetLoop startOk (retry_count + 1)
  else Except.error ()
termination_by max_retries - retry_count
decreasing_by omega

/-- Embedding of `reset` of `PPO.py` (lines 63-93): run the retry loop;
on success set up the episode state, command phase 0 (the uncaught
`traci.trafficlight.setPhase(self.tls_id, 0)` after the `try` block —
its failure escapes), and return the first observation. -/
def reset (startOk : Nat → Bool) (o : Oracle) : Except Unit (List ℚ × EnvState) :=
  match resetLoop startOk 0 with
  | Except.error e => Except.error e
  | Except.ok _ =>
    let valid_ids := _validate_ids o
    let s : EnvState :=
      { last_switch_step := -min_green_steps, current_simulation_step := 0,
        valid_ids := valid_ids, connection_active := true }
    if o.setPhaseOk then Except.ok (_get_state o valid_ids, s)
    else Except.error ()

/-- Embedding of `close` of `PPO.py` (lines 215-221): when a connection
is active, `traci.close()` is attempted; on success `connection_active`
becomes false, and a `TraCIException` is caught, leaving the flag as it
was (the assignment is skipped).  Returns the `connection_active` flag
after the call; the method never raises. -/
def close (o : Oracle) (connection_active : Bool) : Bool :=
  if connection_active then
    if o.closeOk then false else connection_active
  else connection_active

end PPO

/-! Concrete fixtures: a fully healthy simulator oracle for each variant
and a few environment states, used to instantiate the theorems below. -/

/-- A DQN oracle on which every TraCI call succeeds: empty detectors,
phase 0, a 6-phase program. -/
def dqnOracleOk : DQN.Oracle :=
  { queues := fun _ => some 0, getPhase := some 0, programPhases := some 6,
    setPhaseOk := true, simStepOk := true }

/-- The DQN oracle on which `traci.simulationStep()` raises. -/
def dqnOracleTickFail : DQN.Oracle := { dqnOracleOk with simStepOk := false }

/-- The DQN oracle on which `traci.trafficlight.setPhase` raises. -/
def dqnOracleSetFail : DQN.Oracle := { dqnOracleOk with setPhaseOk := false }

/-- The DQN environment state right after `reset`. -/
def dqnState0 : DQN.EnvState :=
  { step_count := 0, cumulative_reward := 0, total_queue := 0,
    last_switch_step := -5, episode_count := 1 }

/-- The `StepResult` of a healthy DQN step from `dqnState0` with action 0. -/
def dqnStepResult0 : DQN.StepResult :=
  { obs := [0, 0, 0, 0, 0, 0, 0], reward := 0, terminated := false,
    truncated := false, info := none,
    env := { step_count := 1, cumulative_reward := 0, total_queue := 0,
             last_switch_step := -5, episode_count := 1 } }

/-- A PPO oracle on which every TraCI call succeeds: empty detectors,
phase 0, a 6-phase program, simulated time 5, three live vehicles, all
expected identifiers present. -/
def ppoOracleOk : PPO.Oracle :=
  { queues := fun _ => some 0, getPhase := some 0, programPhases := some 6,
    setPhaseOk := true, simStepOk := true, getTime := some 5,
    vehicleCount := some 3, getIDListOk := true, tlsListed := true,
    detectorsListed := true, closeOk := true }

/-- The PPO oracle on which `traci.simulationStep()` raises. -/
def ppoOracleTickFail : PPO.Oracle := { ppoOracleOk with simStepOk := false }

/-- The PPO oracle on which `traci.trafficlight.setPhase` raises. -/
def ppoOracleSetFail : PPO.Oracle := { ppoOracleOk with setPhaseOk := false }

/-- The PPO environment state right after a successful `reset`. -/
def ppoState0 : PPO.EnvState :=
  { last_switch_step := -10, current_simulation_step := 0,
    valid_ids := true, connection_active := true }

/-- A PPO state whose identifier validation failed, with the dwell
threshold long since met (15 steps elapsed since the last switch). -/
def ppoStateInvalid : PPO.EnvState :=
  { ppoState0 with valid_ids := false, current_simulation_step := 5 }

/-- A PPO state in which only 3 steps have elapsed since the last
switch, below the 10-step dwell threshold. -/
def ppoStateEarly : PPO.EnvState :=
  { ppoState0 with last_switch_step := 0, current_simulation_step := 3 }

/-- A PPO state one step before the 1500-step budget. -/
def ppoStateAtBudget : PPO.EnvState :=
  { ppoState0 with current_simulation_step := 1499 }

/-- Start outcomes where the first five connection attempts (indices
0..4) fail and the sixth (index 5) succeeds. -/
def startOkSixth : Nat → Bool := fun k => k == 5

/-- Start outcomes where every connection attempt fails. -/
def startOkNever : Nat → Bool := fun _ => false

/-! Helper lemmas shared by several claim proofs. -/

theorem list_sum_nonneg_rat (l : List ℚ) (h : ∀ x ∈ l, 0 ≤ x) : 0 ≤ l.sum := by
  induction l with
  | nil => simp
  | cons a t ih =>
    have ha : 0 ≤ a := h a (by simp)
    have ht : 0 ≤ t.sum := ih (fun x hx => h x (by simp [hx]))
    simpa using add_nonneg ha ht

theorem list_sum_eq_zero_iff_rat (l : List ℚ) (h : ∀ x ∈ l, 0 ≤ x) :
    l.sum = 0 ↔ ∀ x ∈ l, x = 0 := by
  induction l with
  | nil => simp
  | cons a t ih =>
    have ha : 0 ≤ a := h a (by simp)
    have ht : 0 ≤ t.sum := list_sum_nonneg_rat t (fun x hx => h x (by simp [hx]))
    have iht := ih (fun x hx => h x (by simp [hx]))
    simp only [List.sum_cons, List.mem_cons]
    constructor
    · intro h0
      have h1 : a = 0 ∧ t.sum = 0 := by constructor <;> linarith
      intro x hx
      rcases hx with hx | hx
      · simpa [hx] using h1.1
      · exact (iht.mp h1.2) x hx
    · intro hz
      have h1 : a = 0 := hz a (Or.inl rfl)
      have h2 : t.sum = 0 := iht.mpr (fun x hx => hz x (Or.inr hx))
      simp [h1, h2]

/-! Claim theorems. -/

/-- C1 counterexample: in the PPO variant, a state with `valid_ids =
false` satisfies every hypothesis of the claim (dwell threshold met, the
simulator reports a 6-phase program, every command would succeed), yet
`ADVANCE` issues no phase command and leaves `last_switch_step` at its
old value `-10` instead of the current step `5`. -/
theorem advance_after_dwell_needs_valid_ids_cex :
    ppoStateInvalid.valid_ids = false ∧
    PPO.min_green_steps ≤
      ppoStateInvalid.current_simulation_step - ppoStateInvalid.last_switch_step ∧
    ppoOracleOk.programPhases = some 6 ∧ ppoOracleOk.setPhaseOk = true ∧
    PPO._apply_action ppoOracleOk ppoStateInvalid 1 = ⟨-10, none⟩ ∧
    PPO._apply_action ppoOracleOk ppoStateInvalid 1 ≠
      ⟨ppoStateInvalid.current_simulation_step,
       some ((PPO._get_current_phase ppoOracleOk + 1) % 6)⟩ := by
  refine ⟨rfl, by decide, rfl, rfl, by decide, by decide⟩

/-- C1 (amended): once at least `min_green_steps` steps have elapsed
since `last_switch_step`, the program reports a nonzero phase count `n`,
and the phase query and phase command succeed, `ADVANCE` commands phase
`(current + 1) % n` and sets `last_switch_step` to the current step — in
the DQN variant unconditionally, in the PPO variant additionally
requiring the identifier-validation flag `valid_ids` to be true. -/
theorem advance_after_dwell_switches_phase
    (o : DQN.Oracle) (cur last : Int) (p n : Nat)
    (o2 : PPO.Oracle) (s : PPO.EnvState) (p2 n2 : Nat)
    (hd : DQN.min_green_steps ≤ cur - last)
    (hp : o.getPhase = some p) (hn : o.programPhases = some n) (hn0 : n ≠ 0)
    (hs : o.setPhaseOk = true)
    (hv : s.valid_ids = true)
    (hd2 : PPO.min_green_steps ≤ s.current_simulation_step - s.last_switch_step)
    (hp2 : o2.getPhase = some p2) (hn2 : o2.programPhases = some n2)
    (hn20 : n2 ≠ 0) (hs2 : o2.setPhaseOk = true) :
    DQN._apply_action o cur last 1 = Except.ok ⟨cur, some ((p + 1) % n)⟩ ∧
    PPO._apply_action o2 s 1 = ⟨s.current_simulation_step, some ((p2 + 1) % n2)⟩ := by
  constructor
  · simp [DQN._apply_action, hd, hp, hn, hn0, hs]
  · simp [PPO._apply_action, PPO._get_current_phase, hv, hd2, hp2, hn2, hn20, hs2]

/-- Witness for `advance_after_dwell_switches_phase` at concrete inputs:
DQN at step 0 with `last_switch_step = -5`, PPO at `ppoState0`. -/
theorem advance_after_dwell_switches_phase_w :
    DQN._apply_action dqnOracleOk 0 (-5) 1 = Except.ok ⟨0, some ((0 + 1) % 6)⟩ ∧
    PPO._apply_action ppoOracleOk ppoState0 1 =
      ⟨ppoState0.current_simulation_step, some ((0 + 1) % 6)⟩ :=
  advance_after_dwell_switches_phase dqnOracleOk 0 (-5) 0 6 ppoOracleOk ppoState0 0 6
    (by decide) rfl rfl (by decide) rfl rfl (by decide) rfl rfl (by decide) rfl

/-- C2: in both variants, `ADVANCE` issued before `min_green_steps`
steps have elapsed since `last_switch_step` is a no-op: the controller's
`last_switch_step` is unchanged and no `setPhase` command is issued to
the simulator (so the signal phase is untouched). -/
theorem advance_before_dwell_is_noop (o : DQN.Oracle) (cur last : Int)
    (o2 : PPO.Oracle) (s : PPO.EnvState)
    (h1 : cur - last < DQN.min_green_steps)
    (h2 : s.current_simulation_step - s.last_switch_step < PPO.min_green_steps) :
    DQN._apply_action o cur last 1 = Except.ok ⟨last, none⟩ ∧
    PPO._apply_action o2 s 1 = ⟨s.last_switch_step, none⟩ := by
  constructor
  · simp [DQN._apply_action, not_le.mpr h1]
  · rcases hb : s.valid_ids <;> simp [PPO._apply_action, hb, not_le.mpr h2]

/-- Witness for `advance_before_dwell_is_noop`: DQN at step 2 with
`last_switch_step = 0` (2 < 5 elapsed), PPO at `ppoStateEarly`
(3 < 10 elapsed). -/
theorem advance_before_dwell_is_noop_w :
    DQN._apply_action dqnOracleOk 2 0 1 = Except.ok ⟨0, none⟩ ∧
    PPO._apply_action ppoOracleOk ppoStateEarly 1 =
      ⟨ppoStateEarly.last_switch_step, none⟩ :=
  advance_before_dwell_is_noop dqnOracleOk 2 0 ppoOracleOk ppoStateEarly
    (by decide) (by decide)

/-- C3 counterexample: in the DQN variant a connection-level failure of
the simulation tick does not make `step` return `terminated = true` with
reward 0 and a diagnostic — the method has no handler at all and the
exception propagates out of `step` (`Except.error`). -/
theorem dqn_step_tick_failure_raises_cex :
    DQN.step dqnOracleTickFail dqnState0 0 = Except.error () := by decide

/-- C3 (amended): in the PPO variant, a connection-level failure of the
tick / time query / vehicle-count query, a reported negative elapsed
time, or zero live vehicles before the step budget, makes `step` return
immediately with `terminated = true`, reward 0 and a diagnostic code in
`info`; the DQN variant has no such handling and a tick failure
propagates as an uncaught exception out of `step`. -/
theorem ppo_step_failure_ends_episode (o : PPO.Oracle) (s : PPO.EnvState) (a : Nat) :
    (o.simStepOk = false ∨ o.getTime = none ∨ o.vehicleCount = none →
      (PPO.step o s a).terminated = true ∧ (PPO.step o s a).reward = 0 ∧
      (PPO.step o s a).info.isSome = true) ∧
    (∀ t : ℚ, o.getTime = some t → t < 0 →
      (PPO.step o s a).terminated = true ∧ (PPO.step o s a).reward = 0 ∧
      (PPO.step o s a).info.isSome = true) ∧
    (o.vehicleCount = some 0 → s.current_simulation_step + 1 < PPO.total_steps →
      (PPO.step o s a).terminated = true ∧ (PPO.step o s a).reward = 0 ∧
      (PPO.step o s a).info.isSome = true) ∧
    (∀ od : DQN.Oracle, ∀ sd : DQN.EnvState, od.simStepOk = false →
      DQN.step od sd 0 = Except.error ()) := by
  refine ⟨?_, ?_, ?_, ?_⟩
  · intro hf
    unfold PPO.step
    rcases hS : o.simStepOk <;> rcases hT : o.getTime with _ | t <;>
      rcases hV : o.vehicleCount with _ | vc <;> split_ifs <;> simp_all <;>
        split_ifs <;> simp_all
  · intro t0 ht0 hneg
    unfold PPO.step
    rcases hS : o.simStepOk <;> rcases hT : o.getTime with _ | t <;>
      rcases hV : o.vehicleCount with _ | vc <;> split_ifs <;> simp_all <;>
        split_ifs <;> simp_all
  · intro hvc hlt
    unfold PPO.step
    rcases hS : o.simStepOk <;> rcases hT : o.getTime with _ | t <;>
      rcases hV : o.vehicleCount with _ | vc <;> split_ifs <;> simp_all <;>
        split_ifs <;> simp_all
  · intro od sd hf
    simp [DQN.step, DQN._apply_action, hf]

/-- Witness for `ppo_step_failure_ends_episode`: a failing tick from
`ppoState0` in each variant. -/
theorem ppo_step_failure_ends_episode_w :
    (PPO.step ppoOracleTickFail ppoState0 0).terminated = true ∧
    (PPO.step ppoOracleTickFail ppoState0 0).reward = 0 ∧
    (PPO.step ppoOracleTickFail ppoState0 0).info.isSome = true ∧
    DQN.step dqnOracleTickFail dqnState0 0 = Except.error () := by
  have h := ppo_step_failure_ends_episode ppoOracleTickFail ppoState0 0
  exact ⟨(h.1 (Or.inl rfl)).1, (h.1 (Or.inl rfl)).2.1, (h.1 (Or.inl rfl)).2.2,
         h.2.2.2 dqnOracleTickFail dqnState0 rfl⟩

/-- C4 counterexample: in the PPO variant, a healthy step that reaches
the 1500-step budget reports the end of the episode in the `terminated`
slot of the returned tuple, with `truncated = false` — not
`truncated = true` with `terminated = false` as the claim states. -/
theorem ppo_budget_sets_terminated_cex :
    (PPO.step ppoOracleOk ppoStateAtBudget 0).terminated = true ∧
    (PPO.step ppoOracleOk ppoStateAtBudget 0).truncated = false ∧
    (PPO.step ppoOracleOk ppoStateAtBudget 0).info = none := by
  refine ⟨by decide, by decide, by decide⟩

/-- C4 (amended): in the DQN variant, a returning `step` has
`truncated = true` exactly when the incremented step counter reaches
`max_steps`, and `terminated` is always false.  In the PPO variant
`truncated` is always false, and on the non-failure path the step-budget
condition is reported in the `terminated` slot instead. -/
theorem episode_budget_flags (o : DQN.Oracle) (s : DQN.EnvState) (a : Nat)
    (r : DQN.StepResult) (o2 : PPO.Oracle) (s2 : PPO.EnvState) (a2 : Nat)
    (h : DQN.step o s a = Except.ok r) :
    (r.truncated = true ↔ DQN.max_steps ≤ s.step_count + 1) ∧
    r.terminated = false ∧
    (PPO.step o2 s2 a2).truncated = false ∧
    ((PPO.step o2 s2 a2).info = none →
      ((PPO.step o2 s2 a2).terminated = true ↔
        PPO.total_steps ≤ s2.current_simulation_step + 1)) := by
  refine ⟨?_, ?_, ?_, ?_⟩
  · simp only [DQN.step] at h
    rcases hA : DQN._apply_action o s.step_count s.last_switch_step a with e | ar <;>
      rw [hA] at h
    · exact Except.noConfusion h
    · rcases hS : o.simStepOk <;> rw [hS] at h
      · simp at h
      · simp only [if_true] at h
        rcases hG : DQN._get_state o with e | ns <;> rw [hG] at h
        · exact Except.noConfusion h
        · have h2 := (Except.ok.injEq _ _).mp h
          subst h2
          simp
  · simp only [DQN.step] at h
    rcases hA : DQN._apply_action o s.step_count s.last_switch_step a with e | ar <;>
      rw [hA] at h
    · exact Except.noConfusion h
    · rcases hS : o.simStepOk <;> rw [hS] at h
      · simp at h
      · simp only [if_true] at h
        rcases hG : DQN._get_state o with e | ns <;> rw [hG] at h
        · exact Except.noConfusion h
        · have h2 := (Except.ok.injEq _ _).mp h
          subst h2
          rfl
  · unfold PPO.step
    rcases hS : o2.simStepOk <;> rcases hT : o2.getTime with _ | t <;>
      rcases hV : o2.vehicleCount with _ | vc <;> split_ifs <;> simp_all <;>
        split_ifs <;> simp_all
  · unfold PPO.step
    rcases hS : o2.simStepOk <;> rcases hT : o2.getTime with _ | t <;>
      rcases hV : o2.vehicleCount with _ | vc <;> split_ifs <;> simp_all <;>
        split_ifs <;> simp_all

/-- Witness for `episode_budget_flags`: a healthy DQN step from
`dqnState0` and a healthy PPO step from `ppoState0`. -/
theorem episode_budget_flags_w :
    (dqnStepResult0.truncated = true ↔ DQN.max_steps ≤ dqnState0.step_count + 1) ∧
    dqnStepResult0.terminated = false ∧
    (PPO.step ppoOracleOk ppoState0 0).truncated = false ∧
    ((PPO.step ppoOracleOk ppoState0 0).info = none →
      ((PPO.step ppoOracleOk ppoState0 0).terminated = true ↔
        PPO.total_steps ≤ ppoState0.current_simulation_step + 1)) :=
  episode_budget_flags dqnOracleOk dqnState0 0 dqnStepResult0 ppoOracleOk ppoState0 0
    (by norm_num [DQN.step, DQN._apply_action, DQN._get_state, DQN._get_reward,
                  DQN.max_steps, dqnOracleOk, dqnState0, dqnStepResult0])

/-- C5: in both variants the reward of an observation is the negation of
the sum of its queue fields (all elements but the trailing phase field);
for non-negative queue fields the reward is at most 0 and equals 0 iff
every queue field is 0. -/
theorem reward_is_negated_queue_sum (state : List ℚ)
    (hnn : ∀ x ∈ state.dropLast, 0 ≤ x) :
    DQN._get_reward state = -(state.dropLast.sum) ∧
    PPO._get_reward state = -(state.dropLast.sum) ∧
    DQN._get_reward state ≤ 0 ∧ PPO._get_reward state ≤ 0 ∧
    (DQN._get_reward state = 0 ↔ ∀ x ∈ state.dropLast, x = 0) ∧
    (PPO._get_reward state = 0 ↔ ∀ x ∈ state.dropLast, x = 0) := by
  have hs := list_sum_nonneg_rat _ hnn
  have hz := list_sum_eq_zero_iff_rat _ hnn
  refine ⟨rfl, rfl, ?_, ?_, ?_, ?_⟩ <;>
    simp [DQN._get_reward, PPO._get_reward, neg_nonpos, neg_eq_zero, hs, hz]

/-- Witness for `reward_is_negated_queue_sum` on the spec's scenario
observation `[1, 0, 2, 0, 1, 0, 3]` (queues `[1,0,2,0,1,0]`, phase 3). -/
theorem reward_is_negated_queue_sum_w :
    DQN._get_reward [1, 0, 2, 0, 1, 0, 3] ≤ 0 ∧
    PPO._get_reward [1, 0, 2, 0, 1, 0, 3] ≤ 0 :=
  ⟨(reward_is_negated_queue_sum [1, 0, 2, 0, 1, 0, 3] (by norm_num)).2.2.1,
   (reward_is_negated_queue_sum [1, 0, 2, 0, 1, 0, 3] (by norm_num)).2.2.2.1⟩

/-- C6 counterexample: with `max_retries = 5`, the simulator start fails
five times in a row (attempts 0 to 4) and succeeds on the sixth attempt;
`reset` then returns an observation normally instead of raising —
the code makes an initial attempt plus up to 5 retries, so five
consecutive failures are not enough to exhaust it. -/
theorem reset_five_failures_still_returns_cex :
    startOkSixth 0 = false ∧ startOkSixth 1 = false ∧ startOkSixth 2 = false ∧
    startOkSixth 3 = false ∧ startOkSixth 4 = false ∧
    PPO.reset startOkSixth ppoOracleOk =
      Except.ok ([0, 0, 0, 0, 0, 0, 0], ppoState0) := by
  have l : PPO.resetLoop startOkSixth 0 = Except.ok 5 := by
    simp [PPO.resetLoop, startOkSixth, PPO.max_retries]
  refine ⟨rfl, rfl, rfl, rfl, rfl, ?_⟩
  simp [PPO.reset, l, PPO._validate_ids, PPO._get_state, PPO._get_queue_length,
        PPO._get_current_phase, PPO.min_green_steps, ppoOracleOk, ppoState0]

/-- C6 (amended): `reset` retries up to `max_retries = 5` times after
the initial attempt, with a fixed delay between attempts; it raises the
startup failure to the caller (returning no observation) exactly when
all six attempts — the initial one and the five retries — fail. -/
theorem reset_raises_after_six_failures (startOk : Nat → Bool) (o : PPO.Oracle)
    (h : ∀ k, k ≤ PPO.max_retries → startOk k = false) :
    PPO.reset startOk o = Except.error () := by
  have h0 := h 0 (by norm_num [PPO.max_retries])
  have h1 := h 1 (by norm_num [PPO.max_retries])
  have h2 := h 2 (by norm_num [PPO.max_retries])
  have h3 := h 3 (by norm_num [PPO.max_retries])
  have h4 := h 4 (by norm_num [PPO.max_retries])
  have h5 := h 5 (by norm_num [PPO.max_retries])
  have l : PPO.resetLoop startOk 0 = Except.error () := by
    simp [PPO.resetLoop, PPO.max_retries, h0, h1, h2, h3, h4, h5]
  simp [PPO.reset, l]

/-- Witness for `reset_raises_after_six_failures`: every attempt fails. -/
theorem reset_raises_after_six_failures_w :
    PPO.reset startOkNever ppoOracleOk = Except.error () :=
  reset_raises_after_six_failures startOkNever ppoOracleOk (fun _ _ => rfl)

/-- C7: in both variants, when `ADVANCE` passes the dwell-time check but
the program-logic query or the `setPhase` command fails at the protocol
level, the controller's `last_switch_step` is left unchanged (for the
DQN variant, provided its uncaught phase query succeeded). -/
theorem failed_switch_leaves_controller_unchanged
    (o : DQN.Oracle) (cur last : Int) (p : Nat)
    (o2 : PPO.Oracle) (s : PPO.EnvState)
    (hd : DQN.min_green_steps ≤ cur - last) (hp : o.getPhase = some p)
    (hfail : o.programPhases = none ∨ o.setPhaseOk = false)
    (hfail2 : o2.programPhases = none ∨ o2.setPhaseOk = false) :
    Except.map ApplyResult.last_switch_step (DQN._apply_action o cur last 1) =
      Except.ok last ∧
    (PPO._apply_action o2 s 1).last_switch_step = s.last_switch_step := by
  constructor
  · rcases hfail with hf | hf
    · simp [DQN._apply_action, Except.map, hd, hp, hf]
    · rcases hn : o.programPhases with _ | n
      · simp [DQN._apply_action, Except.map, hd, hp, hn]
      · rcases hn0 : n with _ | m
        · simp [DQN._apply_action, Except.map, hd, hp, hn, hn0]
        · simp [DQN._apply_action, Except.map, hd, hp, hn, hf, hn0]
  · unfold PPO._apply_action
    rcases hb : s.valid_ids <;> rcases hn : o2.programPhases with _ | n <;>
      rcases hfail2 with hf | hf <;> split_ifs <;> simp_all <;>
        split_ifs <;> simp_all

/-- Witness for `failed_switch_leaves_controller_unchanged`: `setPhase`
fails in both variants, with the dwell threshold met. -/
theorem failed_switch_leaves_controller_unchanged_w :
    Except.map ApplyResult.last_switch_step
      (DQN._apply_action dqnOracleSetFail 0 (-5) 1) = Except.ok (-5) ∧
    (PPO._apply_action ppoOracleSetFail ppoState0 1).last_switch_step =
      ppoState0.last_switch_step :=
  failed_switch_leaves_controller_unchanged dqnOracleSetFail 0 (-5) 0
    ppoOracleSetFail ppoState0 (by decide) rfl (Or.inr rfl) (Or.inr rfl)

/-- C8: whenever `valid_ids` is false, the PPO observation builder
short-circuits to the all-zero vector of the fixed length 7, whatever
the simulator oracle would answer (so no simulator query matters), and
`_validate_ids` itself is a total function that merely sets the flag. -/
theorem invalid_ids_short_circuits_observation (o : PPO.Oracle) :
    PPO._get_state o false = List.replicate 7 0 ∧
    (PPO._get_state o false).length = 7 := by
  constructor <;> simp [PPO._get_state]

/-- C9: `close` is idempotent in both variants.  In the DQN variant,
after any `close` that returned, a second `close` makes no protocol call
(so it cannot raise, whatever `traci.close()` would do), returns
normally and leaves the environment closed, as does a `close` when no
session exists; a `close` with an active session releases it when the
underlying `traci.close()` succeeds.  In the PPO variant `close` never
raises, re-closing is idempotent, a `close` with no active session does
nothing, and a `close` whose underlying command succeeds leaves the
session released. -/
theorem close_is_idempotent (ok1 ok2 l a : Bool) (o : PPO.Oracle)
    (r : Bool × Bool) (h : DQN.close ok1 l = Except.ok r) :
    DQN.close ok2 r.1 = Except.ok (false, false) ∧
    DQN.close true true = Except.ok (false, true) ∧
    DQN.close ok2 false = Except.ok (false, false) ∧
    PPO.close o (PPO.close o a) = PPO.close o a ∧
    PPO.close o false = false ∧
    PPO.close { o with closeOk := true } a = false := by
  have hr : r.1 = false := by
    rcases l <;> rcases hok : ok1 <;> simp [DQN.close, hok] at h <;>
      simp [← h]
  rw [hr]
  refine ⟨by simp [DQN.close], by simp [DQN.close], by simp [DQN.close],
          ?_, ?_, ?_⟩ <;>
    rcases hc : o.closeOk <;> rcases a <;> simp [PPO.close, hc]

/-- Witness for `close_is_idempotent`: a successful close of a loaded
TraCI connection, re-closed afterwards, with the healthy PPO oracle. -/
theorem close_is_idempotent_w :
    DQN.close true false = Except.ok (false, false) ∧
    DQN.close true true = Except.ok (false, true) ∧
    DQN.close true false = Except.ok (false, false) ∧
    PPO.close ppoOracleOk (PPO.close ppoOracleOk true) =
      PPO.close ppoOracleOk true ∧
    PPO.close ppoOracleOk false = false ∧
    PPO.close { ppoOracleOk with closeOk := true } true = false :=
  close_is_idempotent true true true true ppoOracleOk (false, true) (by decide)

/-- C10: in the DQN variant, whenever `step` returns (rather than
raising), the `terminated` flag of the returned tuple is false: this
variant can end an episode only by truncation at `max_steps`. -/
theorem dqn_step_never_terminated (o : DQN.Oracle) (s : DQN.EnvState) (a : Nat)
    (r : DQN.StepResult) (h : DQN.step o s a = Except.ok r) :
    r.terminated = false := by
  simp only [DQN.step] at h
  rcases hA : DQN._apply_action o s.step_count s.last_switch_step a with e | ar <;>
    rw [hA] at h
  · exact Except.noConfusion h
  · rcases hS : o.simStepOk <;> rw [hS] at h
    · simp at h
    · simp only [if_true] at h
      rcases hG : DQN._get_state o with e | ns <;> rw [hG] at h
      · exact Except.noConfusion h
      · have h2 := (Except.ok.injEq _ _).mp h
        subst h2
        rfl

/-- Witness for `dqn_step_never_terminated`: a healthy step from
`dqnState0`. -/
theorem dqn_step_never_terminated_w : dqnStepResult0.terminated = false :=
  dqn_step_never_terminated dqnOracleOk dqnState0 0 dqnStepResult0
    (by norm_num [DQN.step, DQN._apply_action, DQN._get_state, DQN._get_reward,
                  DQN.max_steps, dqnOracleOk, dqnState0, dqnStepResult0])
